import Mathlib

/-!
Verification development for the mental-health prediction app
(`src/code/predict_mental_health.py`).

The script itself is UI orchestration: it loads a classifier, encoders and
a LIME explainer into the session state, encodes the user's record, and on
the Predict button runs prediction, the LIME explanation, the Gemini
natural-language explanation and the PDF report.

The local-explanation core described by the specification (Feature Space
Descriptor, Perturbation Sampler, Proximity Weighter, Surrogate Fitter,
Explanation Assembler) is not implemented in the repository: the script
obtains it wholesale from the third-party `lime` library through a single
`explain_instance` call.  Those components are therefore modelled here
from the specification text, and the embedding makes the design's
mathematical choices explicit:

* machine reals are modelled as `ℚ`; the Gaussian perturbation draw is
  modelled as a seeded pseudo-random rational (no verified property
  depends on the distribution's shape);
* the exponential proximity kernel is modelled with a truncated Taylor
  expansion `expTaylor` so that weights stay rational and computable;
  distances are squared scaled Euclidean distances (a strictly monotone
  transform of the Euclidean distance, avoiding irrational square roots);
* a feature whose standard deviation is zero contributes zero scaled
  difference, which is how the model renders "must tolerate zero variance
  without dividing by zero" (in `ℚ` division is total, and the kernel's
  denominator is proved to be at least 1, so no division by zero can occur);
* fallible steps return `Except CoreError`, so a request is by construction
  either a complete result or a typed failure.

The parts of the script that are genuine source code — the Gemini
explanation helper, the session-state initialisation guard and the
label-encoding loop — are embedded directly from the source.
-/

namespace MentalHealthApp

/-- Error kinds of the explanation pipeline, from the specification's
error-handling design (§7). -/
inductive CoreError where
  | invalidReferenceData
  | insufficientSampleSize
  | classifierUnavailable
  | surrogateFitFailure
  | unknownCategory
deriving DecidableEq, Repr

/-- Modelled from the spec: per-feature statistics held by the Feature Space
Descriptor — mean and standard deviation for a continuous feature, the
discrete value set with empirical counts for a categorical feature.  The
descriptor itself is absent from the repository (it lives inside the
third-party LIME explainer constructed at lines 25–31 of the script). -/
inductive FeatureKind where
  | continuous (mean std : ℚ)
  | categorical (values : List (ℚ × Nat))
deriving DecidableEq, Repr

/-- Modelled from the spec: a named feature description. -/
structure FeatureSpec where
  name : String
  kind : FeatureKind
deriving DecidableEq, Repr

/-- Modelled from the spec: one column of the reference dataset, the shape
supplied by the reference dataset loader (a feature name with its ordered
sequence of observed values, tagged continuous or categorical). -/
structure FeatureColumn where
  name : String
  categorical : Bool
  values : List ℚ
deriving DecidableEq, Repr

/-- Mean of a column (empty column: total division gives 0). -/
def colMean (xs : List ℚ) : ℚ := xs.sum / (xs.length : ℚ)

/-- Empirical variance of a column. -/
def colVariance (xs : List ℚ) : ℚ :=
  ((xs.map (fun x => (x - colMean xs) ^ 2)).sum) / (xs.length : ℚ)

/-- Rational square-root approximation (floor square root of the numerator
times the denominator, over the denominator).  Only the facts `ratSqrt 0 = 0`
and totality matter to the verified properties. -/
def ratSqrt (q : ℚ) : ℚ :=
  if q ≤ 0 then 0 else ((Nat.sqrt (q.num.toNat * q.den) : ℚ) / (q.den : ℚ))

/-- Standard deviation of a column, via `ratSqrt`. -/
def colStd (xs : List ℚ) : ℚ := ratSqrt (colVariance xs)

/-- Distinct values of a column paired with their empirical counts. -/
def distinctCounts (vals : List ℚ) : List (ℚ × Nat) :=
  vals.dedup.map (fun v => (v, vals.count v))

/-- Modelled from the spec: build one FeatureSpec from one reference column. -/
def buildSpec (col : FeatureColumn) : FeatureSpec :=
  if col.categorical then ⟨col.name, FeatureKind.categorical (distinctCounts col.values)⟩
  else ⟨col.name, FeatureKind.continuous (colMean col.values) (colStd col.values)⟩

/-- Modelled from the spec: Feature Space Descriptor construction — fails with
`InvalidReferenceData` when the reference dataset is empty or some column has
no values, otherwise describes every column. -/
def buildDescriptor (cols : List FeatureColumn) : Except CoreError (List FeatureSpec) :=
  if cols = [] ∨ cols.any (fun c => c.values = []) then Except.error CoreError.invalidReferenceData
  else Except.ok (cols.map buildSpec)

/-- Linear congruential pseudo-random step (models the seeded random source;
the spec only requires determinism in the seed). -/
def rngNext (s : Nat) : Nat := (s * 1103515245 + 12345) % 2147483648

/-- Pseudo-random rational in [-1, 1] derived from an rng state; models one
Gaussian draw (shape of the distribution is irrelevant to the verified
properties). -/
def noiseOf (s : Nat) : ℚ := ((s % 2001 : Nat) : ℚ) / 1000 - 1

/-- Total count of a categorical empirical marginal. -/
def countTotal (values : List (ℚ × Nat)) : Nat := (values.map (fun p => p.2)).sum

/-- Draw a value from a categorical empirical marginal by cumulative counts;
falls back to the target's own value for an empty marginal. -/
def pickWeighted (t : ℚ) : List (ℚ × Nat) → Nat → ℚ
  | [], _ => t
  | (v, c) :: rest, r => if r < c then v else pickWeighted t rest (r - c)

/-- Modelled from the spec: resample one feature of the target — a continuous
feature is perturbed by noise scaled to its standard deviation, a categorical
feature is redrawn from its empirical marginal. -/
def sampleFeature (fs : FeatureSpec) (t : ℚ) (s : Nat) : ℚ :=
  match fs.kind with
  | FeatureKind.continuous _ std => t + noiseOf s * std
  | FeatureKind.categorical values => pickWeighted t values (s % countTotal values)

/-- Modelled from the spec: produce one synthetic neighbor of the target by
independently resampling every feature, threading the rng state. -/
def sampleInstance : List FeatureSpec → List ℚ → Nat → List ℚ × Nat
  | [], _, s => ([], s)
  | _ :: _, [], s => ([], s)
  | fs :: specs, t :: ts, s =>
    let s1 := rngNext s
    let rest := sampleInstance specs ts s1
    (sampleFeature fs t s1 :: rest.1, rest.2)

/-- Modelled from the spec: produce `n` synthetic neighbors. -/
def sampleInstances (specs : List FeatureSpec) (target : List ℚ) : Nat → Nat → List (List ℚ)
  | 0, _ => []
  | n + 1, s =>
    let one := sampleInstance specs target s
    one.1 :: sampleInstances specs target n one.2

/-- Modelled from the spec: scaled per-feature difference used by the
Proximity Weighter — continuous differences divided by the standard deviation
(zero when the deviation is zero, so a zero-variance feature carries no
distance and no division by zero arises), Hamming mismatch for categorical
features. -/
def scaledDiff (fs : FeatureSpec) (x t : ℚ) : ℚ :=
  match fs.kind with
  | FeatureKind.continuous _ std => if std = 0 then 0 else (x - t) / std
  | FeatureKind.categorical _ => if x = t then 0 else 1

/-- Modelled from the spec: squared scaled Euclidean distance between a
neighbor and the target. -/
def sqDistance : List FeatureSpec → List ℚ → List ℚ → ℚ
  | fs :: specs, x :: xs, t :: ts => (scaledDiff fs x t) ^ 2 + sqDistance specs xs ts
  | _, _, _ => 0

/-- Truncated Taylor expansion of the exponential, keeping the kernel
rational; on nonnegative arguments it is at least 1, so its reciprocal is a
weight in (0, 1] that is maximal (equal to 1) exactly at argument 0. -/
def expTaylor (x : ℚ) : ℚ := 1 + x + x ^ 2 / 2 + x ^ 3 / 6 + x ^ 4 / 24

/-- Modelled from the spec: exponential proximity kernel with squared
bandwidth equal to the feature count (bandwidth derived from the square root
of the feature count), mapping a squared distance to a sample weight. -/
def kernelWeight (numFeatures : Nat) (d : ℚ) : ℚ :=
  1 / expTaylor (d / (numFeatures : ℚ))

/-- Modelled from the spec: one Neighborhood triple — the instance, its
squared distance to the target, and its kernel weight. -/
def weightTriple (specs : List FeatureSpec) (target x : List ℚ) : List ℚ × ℚ × ℚ :=
  (x, sqDistance specs x target, kernelWeight specs.length (sqDistance specs x target))

/-- Modelled from the spec: the Perturbation Sampler plus Proximity Weighter —
for sample count 0 the request fails with `InsufficientSampleSize` and no
Neighborhood is produced; otherwise the Neighborhood consists of the target
itself (the zero-distance reference sample) followed by `n` synthetic
neighbors, each triple carrying its squared distance and kernel weight. -/
def buildNeighborhood (specs : List FeatureSpec) (target : List ℚ) (seed : Nat) (n : Nat) :
    Except CoreError (List (List ℚ × ℚ × ℚ)) :=
  if n = 0 then Except.error CoreError.insufficientSampleSize
  else
    Except.ok ((target :: sampleInstances specs target n (rngNext seed)).map
      (weightTriple specs target))

/-- Modelled from the spec: the black-box classifier capability interface —
one batched probability query over a list of instances, fallible. -/
abbrev Classifier := List (List ℚ) → Except CoreError (List (List ℚ))

/-- Modelled from the spec: the SurrogateModel — sparse coefficient mapping
(feature index to nonzero coefficient), intercept, and local fidelity score. -/
structure SurrogateModel where
  coeffs : List (Nat × ℚ)
  intercept : ℚ
  fidelity : ℚ
deriving DecidableEq, Repr

/-- Dot product of two rational lists (mismatched tails ignored). -/
def dotQ (xs ys : List ℚ) : ℚ := (List.zipWith (fun a b => a * b) xs ys).sum

/-- Weighted mean of a list of values under a list of sample weights. -/
def wmean (w xs : List ℚ) : ℚ := dotQ w xs / w.sum

/-- Center a list of values at its weighted mean. -/
def centerW (w xs : List ℚ) : List ℚ := xs.map (fun x => x - wmean w xs)

/-- Weighted covariance of two value lists. -/
def wcov (w xs ys : List ℚ) : ℚ :=
  dotQ w (List.zipWith (fun a b => a * b) (centerW w xs) (centerW w ys)) / w.sum

/-- Weighted variance of a value list. -/
def wvar (w xs : List ℚ) : ℚ := wcov w xs xs

/-- Standardize one feature column under sample weights (a zero-deviation
column standardizes to the all-zero column). -/
def standardizeCol (w col : List ℚ) : List ℚ :=
  let m := wmean w col
  let s := ratSqrt (wmean w (col.map (fun x => (x - m) ^ 2)))
  if s = 0 then col.map (fun _ => 0) else col.map (fun x => (x - m) / s)

/-- Standardized column-major view of the neighborhood's instances. -/
def zcolumns (w : List ℚ) (insts : List (List ℚ)) (numFeatures : Nat) : List (List ℚ) :=
  (List.range numFeatures).map
    (fun j => standardizeCol w (insts.map (fun x => x.getD j 0)))

/-- Ranking relation for feature selection: higher score first. -/
def scoreGE (a b : Nat × ℚ) : Prop := b.2 ≤ a.2

instance : DecidableRel scoreGE := fun a b => inferInstanceAs (Decidable (b.2 ≤ a.2))

instance : IsTotal (Nat × ℚ) scoreGE := ⟨fun a b => le_total b.2 a.2⟩

instance : IsTrans (Nat × ℚ) scoreGE := ⟨fun _ _ _ hab hbc => le_trans hbc hab⟩

/-- Surrogate predictions on the standardized neighborhood. -/
def surrogatePreds (coeffs : List (Nat × ℚ)) (intercept : ℚ) (zcols : List (List ℚ))
    (nrows : Nat) : List ℚ :=
  (List.range nrows).map
    (fun i => intercept + (coeffs.map (fun p => p.2 * ((zcols.getD p.1 []).getD i 0))).sum)

/-- Weighted coefficient of determination of the surrogate fit (total division:
a constant response gives residual and total sums 0, hence fidelity 1). -/
def weightedR2 (w y preds : List ℚ) : ℚ :=
  1 - dotQ w (List.zipWith (fun a b => (a - b) ^ 2) y preds) / dotQ w ((centerW w y).map (fun v => v ^ 2))

/-- Modelled from the spec: the Surrogate Fitter — one batched classifier call
over the whole Neighborhood (a failing classifier is propagated as
`ClassifierUnavailable`), standardization of the features, selection of at
most the feature budget many features by ranked score, a weighted
per-coordinate least-squares coefficient for each selected feature (any
equivalent penalized solver is allowed by the design notes), dropping of
exact-zero coefficients, and the weighted local fidelity score. -/
def fitSurrogate (budget numFeatures : Nat) (cls : Classifier) (classIdx : Nat)
    (nbhd : List (List ℚ × ℚ × ℚ)) : Except CoreError SurrogateModel :=
  let insts := nbhd.map (fun trip => trip.1)
  let w := nbhd.map (fun trip => trip.2.2)
  match cls insts with
  | Except.error _ => Except.error CoreError.classifierUnavailable
  | Except.ok probs =>
    let y := probs.map (fun p => p.getD classIdx 0)
    let zcols := zcolumns w insts numFeatures
    let scored := (List.range numFeatures).map (fun j => (j, |wcov w (zcols.getD j []) y|))
    let selected := ((List.insertionSort scoreGE scored).take (min budget numFeatures)).map
      (fun p => p.1)
    let coeffs := (selected.map (fun j =>
        let zj := zcols.getD j []
        (j, if wvar w zj = 0 then 0 else wcov w zj y / wvar w zj))).filter
      (fun p => ¬ p.2 = 0)
    let intercept := wmean w y - (coeffs.map (fun p => p.2 * wmean w (zcols.getD p.1 []))).sum
    let preds := surrogatePreds coeffs intercept zcols insts.length
    Except.ok ⟨coeffs, intercept, weightedR2 w y preds⟩

/-- Modelled from the spec: one entry of an Explanation — feature name,
signed coefficient, contribution description. -/
structure ExplanationEntry where
  feature : String
  coeff : ℚ
  description : String
deriving DecidableEq, Repr

/-- Contribution label determined by the coefficient's sign. -/
def contributionLabel (c : ℚ) : String :=
  if 0 ≤ c then "increases predicted likelihood" else "decreases predicted likelihood"

/-- Ordering relation of Explanation entries in the assembler: larger absolute
coefficient first. -/
def coeffGE (a b : Nat × ℚ) : Prop := |b.2| ≤ |a.2|

instance : DecidableRel coeffGE := fun a b => inferInstanceAs (Decidable (|b.2| ≤ |a.2|))

instance : IsTotal (Nat × ℚ) coeffGE := ⟨fun a b => le_total |b.2| |a.2|⟩

instance : IsTrans (Nat × ℚ) coeffGE := ⟨fun _ _ _ hab hbc => le_trans hbc hab⟩

/-- Placeholder feature description used only for an out-of-range index. -/
def defaultSpec : FeatureSpec := ⟨"", FeatureKind.continuous 0 0⟩

/-- Modelled from the spec: the Explanation Assembler — sort the surrogate's
coefficients by descending absolute magnitude, truncate to the top-K, and
attach feature names and contribution descriptions.  An empty SurrogateModel
yields an empty Explanation (a valid, low-information result). -/
def assembleExplanation (specs : List FeatureSpec) (topK : Nat) (m : SurrogateModel) :
    List ExplanationEntry :=
  ((List.insertionSort coeffGE m.coeffs).take topK).map
    (fun p => ⟨(specs.getD p.1 defaultSpec).name, p.2, contributionLabel p.2⟩)

/-- Modelled from the spec: pipeline configuration — neighborhood sample count
(default 5000) and feature budget (default 10). -/
structure CoreConfig where
  sampleCount : Nat
  featureBudget : Nat
deriving DecidableEq, Repr

/-- The spec's default configuration. -/
def defaultConfig : CoreConfig := ⟨5000, 10⟩

/-- Session-owned fallback random state, consumed only by requests that do not
fix a seed. -/
structure SessionRng where
  counter : Nat
deriving DecidableEq, Repr

/-- Modelled from the spec: the synchronous explanation pipeline for a fixed
random seed — sample the neighborhood, weight it, fit the surrogate against
the black-box classifier, assemble the ranked explanation, and return it with
the fidelity score, or a typed failure. -/
def explainPure (cfg : CoreConfig) (specs : List FeatureSpec) (cls : Classifier)
    (target : List ℚ) (classIdx : Nat) (seedUsed : Nat) :
    Except CoreError (List ExplanationEntry × ℚ) :=
  match buildNeighborhood specs target seedUsed cfg.sampleCount with
  | Except.error e => Except.error e
  | Except.ok nbhd =>
    match fitSurrogate cfg.featureBudget specs.length cls classIdx nbhd with
    | Except.error e => Except.error e
    | Except.ok m => Except.ok (assembleExplanation specs cfg.featureBudget m, m.fidelity)

/-- Seed actually used by a request: the explicit seed when one is given,
otherwise the session's fallback random state. -/
def seedOf (seed : Option Nat) (sess : SessionRng) : Nat :=
  match seed with
  | some s => s
  | none => sess.counter

/-- Session random state after a request: unchanged when an explicit seed was
given, advanced when the session's fallback state was consumed. -/
def sessAfter (seed : Option Nat) (sess : SessionRng) : SessionRng :=
  match seed with
  | some _ => sess
  | none => ⟨rngNext sess.counter⟩

/-- Modelled from the spec: one explanation request against the session — a
request with an explicit seed reads no session state; a request without one
consumes the session's fallback random state. -/
def explainInstance (cfg : CoreConfig) (specs : List FeatureSpec) (cls : Classifier)
    (target : List ℚ) (classIdx : Nat) (seed : Option Nat) (sess : SessionRng) :
    Except CoreError (List ExplanationEntry × ℚ) × SessionRng :=
  (explainPure cfg specs cls target classIdx (seedOf seed sess), sessAfter seed sess)

/-- The fixed message returned by `generate_gemini_explanation` when no API
key has been entered (line 85 of the script). -/
def geminiKeyMissingMessage : String :=
  "Please enter a valid Google Gemini API key in the sidebar."

/-- The fallback text when the generative service returns no response
(line 95 of the script). -/
def geminiNoResponseMessage : String := "No response generated."

/-- The prompt built at lines 87–91 of the script (interpolation rendered by
concatenation). -/
def geminiPrompt (predicted_label user_input_data : String) : String :=
  "Given the predicted mental health condition: " ++ predicted_label ++
  ", provide a natural language explanation for why this prediction was made based on the following user data: "
  ++ user_input_data ++ "."

/-- Embedding of `generate_gemini_explanation` (lines 83–95).  The external
generative-language service is passed explicitly as a fallible function, and
the second component of the result records whether the service was called at
all.  An empty string models Python's falsy unset key from the sidebar text
input. -/
def generate_gemini_explanation (gemini_api_key : String) (service : String → Option String)
    (predicted_label user_input_data : String) : String × Bool :=
  if gemini_api_key = "" then (geminiKeyMissingMessage, false)
  else
    match service (geminiPrompt predicted_label user_input_data) with
    | some t => (t, true)
    | none => (geminiNoResponseMessage, true)

/-- Modelled from the spec: one label encoder's `transform` on one raw value
(the fitted sklearn encoders are pickled binaries, absent from src) — the
position of the value in the training-time class list, failing with
`UnknownCategory` outside that list; inside the list it is a deterministic
total lookup. -/
def encodeValue (classes : List String) (v : String) : Except CoreError Nat :=
  if v ∈ classes then Except.ok (List.indexOf v classes)
  else Except.error CoreError.unknownCategory

/-- Embedding of the encoding loop at lines 76–77: every categorical column of
the user record is transformed by its encoder, and the first unseen value
aborts the whole encoding. -/
def encodeRecord : List (String × List String) → (String → String) → Except CoreError (List Nat)
  | [], _ => Except.ok []
  | e :: rest, r =>
    match encodeValue e.2 (r e.1) with
    | Except.error err => Except.error err
    | Except.ok i =>
      match encodeRecord rest r with
      | Except.error err => Except.error err
      | Except.ok l => Except.ok (i :: l)

/-- Request handling order of the script: the record is encoded at lines 76–77
before the button handler at line 120 ever runs the explanation core, so an
encoding failure aborts the request before the core is consulted. -/
def handleRequest (encoders : List (String × List String)) (r : String → String)
    (core : List Nat → Except CoreError (List ExplanationEntry × ℚ)) :
    Except CoreError (List ExplanationEntry × ℚ) :=
  match encodeRecord encoders r with
  | Except.error err => Except.error err
  | Except.ok l => core l

/-- Handles to the five collaborators loaded at lines 19–31 of the script
(classifier model, label encoders, target encoder, training data, LIME
explainer), identified abstractly by tokens. -/
structure Collaborators where
  xgb_model : Nat
  label_encoders : Nat
  target_encoder : Nat
  x_train : Nat
  explainer : Nat
deriving DecidableEq, Repr

/-- Streamlit session state relevant to the initialisation guard: whether the
key `loaded` is present (it is only ever set to `True`), and the collaborator
handles, absent before the first load. -/
structure AppSessionState where
  loaded : Bool
  collab : Option Collaborators
deriving DecidableEq, Repr

/-- Embedding of the session-state initialisation guard at lines 18–32: a
script rerun loads fresh collaborator handles and sets the `loaded` flag only
when the flag is absent; `fresh` stands for whatever handles the joblib loads
and the LIME constructor would produce on this particular rerun.  No other
statement of the script assigns these session-state keys. -/
def scriptInit (fresh : Collaborators) (s : AppSessionState) : AppSessionState :=
  if s.loaded then s else ⟨true, some fresh⟩

/-! Helper lemmas about the proximity kernel and the distance. -/

theorem expTaylor_zero : expTaylor 0 = 1 := by
  norm_num [expTaylor]

theorem one_le_expTaylor (x : ℚ) (hx : 0 ≤ x) : 1 ≤ expTaylor x := by
  unfold expTaylor
  have h2 : 0 ≤ x ^ 2 := sq_nonneg x
  have h3 : 0 ≤ x ^ 3 := pow_nonneg hx 3
  have h4 : 0 ≤ x ^ 4 := pow_nonneg hx 4
  linarith

theorem kernelWeight_zero (n : Nat) : kernelWeight n 0 = 1 := by
  unfold kernelWeight
  rw [zero_div, expTaylor_zero]
  norm_num

theorem kernelWeight_le_one (n : Nat) (d : ℚ) (hd : 0 ≤ d) : kernelWeight n d ≤ 1 := by
  unfold kernelWeight
  have harg : 0 ≤ d / (n : ℚ) := div_nonneg hd (by positivity)
  have h1 := one_le_expTaylor _ harg
  rw [div_le_one (by linarith)]
  exact h1

theorem scaledDiff_self (fs : FeatureSpec) (t : ℚ) : scaledDiff fs t t = 0 := by
  cases hk : fs.kind with
  | continuous mean std => simp [scaledDiff, hk, sub_self]
  | categorical values => simp [scaledDiff, hk]

theorem sqDistance_self (specs : List FeatureSpec) : ∀ ts : List ℚ, sqDistance specs ts ts = 0 := by
  induction specs with
  | nil => intro ts; cases ts <;> rfl
  | cons fs specs ih =>
    intro ts
    cases ts with
    | nil => rfl
    | cons t ts =>
      show (scaledDiff fs t t) ^ 2 + sqDistance specs ts ts = 0
      rw [scaledDiff_self, ih]
      norm_num

theorem sqDistance_nonneg (specs : List FeatureSpec) :
    ∀ xs ts : List ℚ, 0 ≤ sqDistance specs xs ts := by
  induction specs with
  | nil => intro xs ts; cases xs <;> cases ts <;> norm_num [sqDistance]
  | cons fs specs ih =>
    intro xs ts
    cases xs with
    | nil => norm_num [sqDistance]
    | cons x xs =>
      cases ts with
      | nil => norm_num [sqDistance]
      | cons t ts =>
        show 0 ≤ (scaledDiff fs x t) ^ 2 + sqDistance specs xs ts
        exact add_nonneg (sq_nonneg _) (ih xs ts)

theorem sqDistance_degenerate (specs : List FeatureSpec)
    (h : ∀ fs ∈ specs, ∃ m, fs.kind = FeatureKind.continuous m 0) :
    ∀ xs ts : List ℚ, sqDistance specs xs ts = 0 := by
  induction specs with
  | nil => intro xs ts; cases xs <;> cases ts <;> rfl
  | cons fs specs ih =>
    intro xs ts
    cases xs with
    | nil => rfl
    | cons x xs =>
      cases ts with
      | nil => rfl
      | cons t ts =>
        obtain ⟨m, hm⟩ := h fs (List.mem_cons_self fs specs)
        have hrest := ih (fun g hg => h g (List.mem_cons_of_mem fs hg)) xs ts
        show (scaledDiff fs x t) ^ 2 + sqDistance specs xs ts = 0
        rw [hrest]
        simp [scaledDiff, hm]

theorem ratSqrt_zero : ratSqrt 0 = 0 := by
  simp [ratSqrt]

theorem weightTriple_target (specs : List FeatureSpec) (target : List ℚ) :
    weightTriple specs target target = (target, (0 : ℚ), (1 : ℚ)) := by
  unfold weightTriple
  rw [sqDistance_self, kernelWeight_zero]

theorem weightTriple_weight_le_one (specs : List FeatureSpec) (target x : List ℚ) :
    (weightTriple specs target x).2.2 ≤ 1 := by
  unfold weightTriple
  exact kernelWeight_le_one _ _ (sqDistance_nonneg specs x target)

/-! Claim theorems. -/

/-- C1: for every valid target instance and every fixed seed, two explanation
requests over the same target and the same classifier produce bit-identical
Explanations — the explanation pipeline is deterministic in its seed, target
and sample count, and with an explicit seed its result is independent of the
session random state in which the request runs. -/
theorem explanation_requests_deterministic (cfg : CoreConfig) (specs : List FeatureSpec)
    (cls : Classifier) (target : List ℚ) (classIdx : Nat) (s : Nat) (sess1 sess2 : SessionRng) :
    (explainInstance cfg specs cls target classIdx (some s) sess1).1 =
      (explainInstance cfg specs cls target classIdx (some s) sess2).1 := rfl

/-- C5: a request whose configured sample count is 0 fails with
`InsufficientSampleSize`, and the Perturbation Sampler produces no
Neighborhood for it. -/
theorem zero_samples_rejected (cfg : CoreConfig) (specs : List FeatureSpec) (cls : Classifier)
    (target : List ℚ) (classIdx : Nat) (seed : Option Nat) (sess : SessionRng)
    (h : cfg.sampleCount = 0) :
    (∀ sd : Nat, buildNeighborhood specs target sd cfg.sampleCount =
      Except.error CoreError.insufficientSampleSize)
    ∧ (explainInstance cfg specs cls target classIdx seed sess).1 =
      Except.error CoreError.insufficientSampleSize := by
  constructor
  · intro sd
    simp [buildNeighborhood, h]
  · show explainPure cfg specs cls target classIdx (seedOf seed sess) =
      Except.error CoreError.insufficientSampleSize
    unfold explainPure
    simp [buildNeighborhood, h]

/-- Witness for C5 at a concrete zero-sample configuration. -/
theorem zero_samples_rejected_witness :
    (∀ sd : Nat, buildNeighborhood [] [] sd (CoreConfig.mk 0 10).sampleCount =
      Except.error CoreError.insufficientSampleSize)
    ∧ (explainInstance (CoreConfig.mk 0 10) [] (fun b => Except.ok b) [] 0 (some 7) ⟨0⟩).1 =
      Except.error CoreError.insufficientSampleSize :=
  zero_samples_rejected (CoreConfig.mk 0 10) [] (fun b => Except.ok b) [] 0 (some 7) ⟨0⟩ rfl

/-- C9: when no Gemini API key has been entered (the sidebar text input is the
empty, falsy string), `generate_gemini_explanation` returns the fixed message
and never calls the external generative-language service. -/
theorem gemini_requires_key (service : String → Option String)
    (predicted_label user_input_data : String) :
    generate_gemini_explanation "" service predicted_label user_input_data =
      (geminiKeyMissingMessage, false) := rfl

/-- C10: within one session the collaborator handles are loaded exactly once —
on a run where the `loaded` flag is absent the guard sets the flag and stores
the freshly loaded handles, and every later rerun of the script leaves the
session state (hence every collaborator handle) unchanged, whatever handles a
fresh load would have produced. -/
theorem collaborators_loaded_once (s : AppSessionState) (fresh1 fresh2 : Collaborators)
    (h : s.loaded = false) :
    (scriptInit fresh1 s).loaded = true
    ∧ (scriptInit fresh1 s).collab = some fresh1
    ∧ scriptInit fresh2 (scriptInit fresh1 s) = scriptInit fresh1 s := by
  simp [scriptInit, h]

/-- Witness for C10 on a concrete fresh session and two distinct loads. -/
theorem collaborators_loaded_once_witness :
    (scriptInit ⟨1, 2, 3, 4, 5⟩ ⟨false, none⟩).loaded = true
    ∧ (scriptInit ⟨1, 2, 3, 4, 5⟩ ⟨false, none⟩).collab = some ⟨1, 2, 3, 4, 5⟩
    ∧ scriptInit ⟨6, 7, 8, 9, 10⟩ (scriptInit ⟨1, 2, 3, 4, 5⟩ ⟨false, none⟩) =
      scriptInit ⟨1, 2, 3, 4, 5⟩ ⟨false, none⟩ :=
  collaborators_loaded_once ⟨false, none⟩ ⟨1, 2, 3, 4, 5⟩ ⟨6, 7, 8, 9, 10⟩ rfl

/-- C3: every Neighborhood generated for a target instance contains the target
itself, with distance exactly 0 and sample weight exactly 1, and 1 is the
maximum weight in the Neighborhood. -/
theorem target_in_neighborhood (specs : List FeatureSpec) (target : List ℚ) (seed n : Nat)
    (nbhd : List (List ℚ × ℚ × ℚ))
    (h : buildNeighborhood specs target seed n = Except.ok nbhd) :
    (target, (0 : ℚ), (1 : ℚ)) ∈ nbhd ∧ ∀ trip ∈ nbhd, trip.2.2 ≤ 1 := by
  by_cases hn : n = 0
  · simp [buildNeighborhood, hn] at h
  · unfold buildNeighborhood at h
    rw [if_neg hn] at h
    injection h with h
    subst h
    constructor
    · rw [List.map_cons, weightTriple_target]
      exact List.mem_cons_self _ _
    · intro trip htrip
      obtain ⟨x, hx, rfl⟩ := List.mem_map.mp htrip
      exact weightTriple_weight_le_one specs target x

/-- C7: when every feature of the reference dataset has zero variance, every
neighbor of the generated Neighborhood receives weight exactly 1 (and since
the kernel's denominator is at least 1 and division in the model is total, no
division error can arise). -/
theorem zero_variance_unit_weights (cols : List FeatureColumn) (specs : List FeatureSpec)
    (target : List ℚ) (seed n : Nat) (nbhd : List (List ℚ × ℚ × ℚ))
    (hcols : ∀ c ∈ cols, c.categorical = false ∧ colVariance c.values = 0)
    (hdesc : buildDescriptor cols = Except.ok specs)
    (hnb : buildNeighborhood specs target seed n = Except.ok nbhd) :
    ∀ trip ∈ nbhd, trip.2.2 = 1 := by
  have hspecs : ∀ fs ∈ specs, ∃ m, fs.kind = FeatureKind.continuous m 0 := by
    unfold buildDescriptor at hdesc
    by_cases hcond : cols = [] ∨ cols.any (fun c => c.values = []) = true
    · rw [if_pos hcond] at hdesc
      exact absurd hdesc (by simp)
    · rw [if_neg hcond] at hdesc
      injection hdesc with hdesc
      subst hdesc
      intro fs hfs
      obtain ⟨c, hc, rfl⟩ := List.mem_map.mp hfs
      obtain ⟨hcat, hvar⟩ := hcols c hc
      refine ⟨colMean c.values, ?_⟩
      simp [buildSpec, hcat, colStd, hvar, ratSqrt_zero]
  by_cases hn : n = 0
  · simp [buildNeighborhood, hn] at hnb
  · unfold buildNeighborhood at hnb
    rw [if_neg hn] at hnb
    injection hnb with hnb
    subst hnb
    intro trip htrip
    obtain ⟨x, hx, rfl⟩ := List.mem_map.mp htrip
    unfold weightTriple
    rw [sqDistance_degenerate specs hspecs, kernelWeight_zero]

/-- C6: a black-box classifier that fails on every call makes the explanation
request fail with `ClassifierUnavailable`; the typed result carries no partial
or degraded Explanation. -/
theorem classifier_failure_propagates (cfg : CoreConfig) (specs : List FeatureSpec)
    (cls : Classifier) (target : List ℚ) (classIdx : Nat) (seed : Option Nat)
    (sess : SessionRng)
    (hcls : ∀ batch, ∃ e, cls batch = Except.error e)
    (hn : cfg.sampleCount ≠ 0) :
    (explainInstance cfg specs cls target classIdx seed sess).1 =
      Except.error CoreError.classifierUnavailable := by
  show explainPure cfg specs cls target classIdx (seedOf seed sess) =
    Except.error CoreError.classifierUnavailable
  unfold explainPure
  cases hb : buildNeighborhood specs target (seedOf seed sess) cfg.sampleCount with
  | error e =>
    unfold buildNeighborhood at hb
    rw [if_neg hn] at hb
    exact absurd hb (by simp)
  | ok nbhd =>
    have hfit : fitSurrogate cfg.featureBudget specs.length cls classIdx nbhd =
        Except.error CoreError.classifierUnavailable := by
      obtain ⟨e, he⟩ := hcls (nbhd.map (fun trip => trip.1))
      simp only [fitSurrogate, he]
    dsimp only
    rw [hfit]

/-- C2: every SurrogateModel the Surrogate Fitter produces has at most the
configured feature budget many nonzero coefficients. -/
theorem surrogate_respects_budget (budget numFeatures : Nat) (cls : Classifier)
    (classIdx : Nat) (nbhd : List (List ℚ × ℚ × ℚ)) (m : SurrogateModel)
    (h : fitSurrogate budget numFeatures cls classIdx nbhd = Except.ok m) :
    (m.coeffs.filter (fun p => ¬ p.2 = 0)).length ≤ budget := by
  simp only [fitSurrogate] at h
  cases hc : cls (nbhd.map (fun trip => trip.1)) with
  | error e =>
    rw [hc] at h
    simp at h
  | ok probs =>
    rw [hc] at h
    injection h with h
    subst h
    dsimp only
    refine le_trans (List.length_filter_le _ _) ?_
    refine le_trans (List.length_filter_le _ _) ?_
    rw [List.length_map, List.length_map, List.length_take]
    omega

/-- C4: every Explanation the Explanation Assembler produces is ordered by
non-increasing absolute coefficient magnitude of its entries. -/
theorem explanation_sorted_by_magnitude (specs : List FeatureSpec) (topK : Nat)
    (m : SurrogateModel) :
    List.Pairwise (fun a b : ExplanationEntry => |b.coeff| ≤ |a.coeff|)
      (assembleExplanation specs topK m) := by
  unfold assembleExplanation
  rw [List.pairwise_map]
  have hs : List.Pairwise coeffGE (List.insertionSort coeffGE m.coeffs) :=
    List.sorted_insertionSort coeffGE m.coeffs
  have ht : List.Pairwise coeffGE ((List.insertionSort coeffGE m.coeffs).take topK) :=
    List.Pairwise.sublist (List.take_sublist _ _) hs
  exact ht.imp (fun hab => hab)

/-! Helper lemmas for the encoding boundary. -/

theorem encodeRecord_error_of_bad (encoders : List (String × List String))
    (r : String → String) (h : ∃ p ∈ encoders, ¬ r p.1 ∈ p.2) :
    encodeRecord encoders r = Except.error CoreError.unknownCategory := by
  induction encoders with
  | nil =>
    obtain ⟨p, hp, _⟩ := h
    exact absurd hp (List.not_mem_nil p)
  | cons e rest ih =>
    by_cases he : r e.1 ∈ e.2
    · obtain ⟨p, hp, hbad⟩ := h
      have hp2 : p ∈ rest := by
        rcases List.mem_cons.mp hp with heq | hmem
        · exact absurd (heq ▸ he) hbad
        · exact hmem
      have hrest := ih ⟨p, hp2, hbad⟩
      simp [encodeRecord, encodeValue, he, hrest]
    · simp [encodeRecord, encodeValue, he]

theorem encodeRecord_ok_of_good (encoders : List (String × List String))
    (r : String → String) (h : ∀ p ∈ encoders, r p.1 ∈ p.2) :
    (encodeRecord encoders r).isOk = true := by
  induction encoders with
  | nil => rfl
  | cons e rest ih =>
    have he := h e (List.mem_cons_self e rest)
    have ih2 := ih (fun p hp => h p (List.mem_cons_of_mem e hp))
    cases hr : encodeRecord rest r with
    | error err => rw [hr] at ih2; simp [Except.isOk, Except.toBool] at ih2
    | ok l => simp [encodeRecord, encodeValue, he, hr, Except.isOk, Except.toBool]

/-- C8: a raw record holding a value outside the training-time value set of
some categorical feature makes the encoding fail with `UnknownCategory`, and
the request is aborted with that failure before the explanation core is ever
consulted (its result does not depend on the core at all); a record whose
values all lie inside the declared domain is encoded successfully — the
encoding is a deterministic total function there. -/
theorem encoding_boundary_total (encoders : List (String × List String))
    (r : String → String) :
    ((∃ p ∈ encoders, ¬ r p.1 ∈ p.2) →
      ∀ core : List Nat → Except CoreError (List ExplanationEntry × ℚ),
        handleRequest encoders r core = Except.error CoreError.unknownCategory)
    ∧ ((∀ p ∈ encoders, r p.1 ∈ p.2) → (encodeRecord encoders r).isOk = true) := by
  constructor
  · intro h core
    unfold handleRequest
    rw [encodeRecord_error_of_bad encoders r h]
  · exact encodeRecord_ok_of_good encoders r

/-- Witness for C3 on a concrete one-feature neighborhood. -/
theorem target_in_neighborhood_witness :
    ((([0] : List ℚ), (0 : ℚ), (1 : ℚ)) ∈
      [((([0] : List ℚ), (0 : ℚ), (1 : ℚ))), ([0], 0, 1)])
    ∧ ∀ trip ∈ [((([0] : List ℚ), (0 : ℚ), (1 : ℚ))), ([0], 0, 1)], trip.2.2 ≤ 1 :=
  target_in_neighborhood [⟨"x", FeatureKind.continuous 0 0⟩] [0] 0 1
    [([0], 0, 1), ([0], 0, 1)]
    (by norm_num [buildNeighborhood, sampleInstances, sampleInstance, sampleFeature,
      weightTriple, sqDistance, scaledDiff, kernelWeight, expTaylor])

/-- Witness for C7 on a concrete zero-variance reference dataset, evaluated at
the head triple of the generated neighborhood. -/
theorem zero_variance_unit_weights_witness :
    ((([5] : List ℚ), (0 : ℚ), (1 : ℚ))).2.2 = 1 :=
  zero_variance_unit_weights [⟨"age", false, [3, 3]⟩] [⟨"age", FeatureKind.continuous 3 0⟩]
    [5] 0 2 [([5], 0, 1), ([5], 0, 1), ([5], 0, 1)]
    (by intro c hc
        simp only [List.mem_singleton] at hc
        subst hc
        exact ⟨rfl, by norm_num [colVariance, colMean]⟩)
    (by norm_num [buildDescriptor, buildSpec, colMean, colStd, colVariance, ratSqrt]
        intro h
        simp at h)
    (by norm_num [buildNeighborhood, sampleInstances, sampleInstance, sampleFeature,
      weightTriple, sqDistance, scaledDiff, kernelWeight, expTaylor])
    ([5], 0, 1) (by simp)

/-- Witness for C6 with a classifier that fails on every batch. -/
theorem classifier_failure_propagates_witness :
    (explainInstance ⟨2, 10⟩ [⟨"x", FeatureKind.continuous 0 1⟩]
      (fun _ => Except.error CoreError.classifierUnavailable) [0] 0 (some 7) ⟨0⟩).1 =
      Except.error CoreError.classifierUnavailable :=
  classifier_failure_propagates ⟨2, 10⟩ [⟨"x", FeatureKind.continuous 0 1⟩]
    (fun _ => Except.error CoreError.classifierUnavailable) [0] 0 (some 7) ⟨0⟩
    (fun _ => ⟨CoreError.classifierUnavailable, rfl⟩) (by decide)

/-- Witness for C2 on a concrete successful fit. -/
theorem surrogate_respects_budget_witness :
    (((SurrogateModel.mk [] 1 1).coeffs.filter (fun p => ¬ p.2 = 0)).length ≤ 10) :=
  surrogate_respects_budget 10 1 (fun insts => Except.ok (insts.map (fun _ => [1]))) 0
    [([0], 0, 1)] (SurrogateModel.mk [] 1 1)
    (by norm_num [fitSurrogate, zcolumns, standardizeCol, wmean, dotQ, centerW, wcov, wvar,
      ratSqrt, surrogatePreds, weightedR2, List.insertionSort, List.orderedInsert])

/-- Witness for C8: a record with an unseen gender value aborts any request
with `UnknownCategory`, and a record inside the domain encodes successfully. -/
theorem encoding_boundary_total_witness :
    handleRequest [("gender", ["female", "male"])] (fun _ => "other")
      (fun _ => Except.ok ([], 0)) = Except.error CoreError.unknownCategory
    ∧ (encodeRecord [("gender", ["female", "male"])] (fun _ => "male")).isOk = true :=
  ⟨(encoding_boundary_total [("gender", ["female", "male"])] (fun _ => "other")).1
      ⟨("gender", ["female", "male"]), by simp, by simp⟩ (fun _ => Except.ok ([], 0)),
   (encoding_boundary_total [("gender", ["female", "male"])] (fun _ => "male")).2
      (by simp)⟩

end MentalHealthApp
